import Mathlib

/-!
Verification of the w3g8-ledger wallet-funding platform.

This file gives a shallow embedding of the double-entry ledger core
(`internal/ledger/domain`, `internal/ledger/store`, `internal/ledger`) and of
the funding orchestrator (`internal/funding`), translated from the Go source,
together with theorems settling the specification claims about them.

Conventions of the embedding:
* Go `int64` money amounts are modelled as unbounded `Int`; none of the claims
  under study concerns 64-bit overflow.
* Database tables are lists of rows kept in insertion order, which coincides
  with `created_at` order; a SQL `ORDER BY created_at DESC LIMIT 1` therefore
  reads the last matching element of the list.
* ULID generation is modelled by a deterministic supply `idStr gen`,
  `idStr (gen+1)`, ...; wall-clock time by a `now : Nat` parameter.
* External collaborators (the Open Banking provider, the ledger client used by
  the funding service) are fields of a `ServiceEnv` record of pure functions.
* Fallible Go functions returning `error` become `Except String _` carrying the
  Go error message.
-/

/-- Deterministic stand-in for `ulid.Make().String()`. -/
def idStr (n : Nat) : String := "id" ++ toString n

theorem idStr_ne_empty (n : Nat) : idStr n ≠ "" := by
  intro h
  have hlen := congrArg String.length h
  simp [idStr, String.length_append] at hlen
  exact absurd hlen.1 (by decide)

/-! ## Money (`internal/common/money`) -/

/-- Monetary amount in integer minor units plus a currency code. -/
structure Money where
  amountMinor : Int
  currency : String
deriving DecidableEq

namespace Money

/-- `money.New(amount, currency)`. -/
def New (amount : Int) (currency : String) : Money := ⟨amount, currency⟩

/-- `money.Zero(currency)`. -/
def Zero (currency : String) : Money := ⟨0, currency⟩

end Money

/-! ## Ledger domain (`internal/ledger/domain`) -/

/-- `domain.EntryType`: the side of a ledger entry. -/
inductive EntryType where
  | debit
  | credit
deriving DecidableEq

/-- `domain.NormalBalance`: the side on which increases are recorded. -/
inductive NormalBalance where
  | debit
  | credit
deriving DecidableEq

/-- `domain.AccountType`. -/
inductive AccountType where
  | asset
  | liability
  | equity
  | revenue
  | expense
deriving DecidableEq

/-- `domain.BatchStatus`. -/
inductive BatchStatus where
  | pending
  | posted
  | reversed
deriving DecidableEq

/-- `domain.GetNormalBalance`: derive the normal balance from the account type. -/
def GetNormalBalance (accountType : AccountType) : NormalBalance :=
  match accountType with
  | .asset => .debit
  | .expense => .debit
  | .liability => .credit
  | .equity => .credit
  | .revenue => .credit

/-- `domain.Account` (the fields the ledger operations read). -/
structure Account where
  id : String
  tenantId : String
  code : String
  accountType : AccountType
  normalBalance : NormalBalance
  currency : String
  isPlaceholder : Bool
deriving DecidableEq

/-- `domain.Entry`: a single leg of a batch. -/
structure Entry where
  id : String
  batchId : String
  accountId : String
  entryType : EntryType
  amount : Money
  balanceAfter : Option Int
  description : String
  sequence : Nat
deriving DecidableEq

/-- `domain.NewEntry` with its validations. -/
def NewEntry (id batchId accountId : String) (entryType : EntryType)
    (amount : Money) (sequence : Nat) : Except String Entry :=
  if id = "" then .error "id is required"
  else if batchId = "" then .error "batch_id is required"
  else if accountId = "" then .error "account_id is required"
  else if amount.amountMinor ≤ 0 then .error "amount must be positive"
  else .ok ⟨id, batchId, accountId, entryType, amount, none, "", sequence⟩

/-- `domain.SourceType`. -/
inductive SourceType where
  | deposit
  | withdrawal
  | payment
  | fee
  | adjustment
  | transfer
deriving DecidableEq

/-- `domain.Batch`: a balanced group of entries. -/
structure Batch where
  id : String
  tenantId : String
  reference : String
  description : String
  sourceType : SourceType
  sourceId : String
  totalDebits : Money
  totalCredits : Money
  entryCount : Nat
  status : BatchStatus
  entries : List Entry
deriving DecidableEq

/-- `domain.Batch.Validate`: the stored-totals integrity check. -/
def Batch.Validate (batch : Batch) : Except String Unit :=
  if batch.totalDebits.amountMinor ≠ batch.totalCredits.amountMinor then
    .error "batch is not balanced"
  else if batch.totalDebits.currency ≠ batch.totalCredits.currency then
    .error "batch currencies do not match"
  else if batch.entries.length ≠ batch.entryCount then
    .error "entry count mismatch"
  else
    let debits := (batch.entries.filter (fun e => e.entryType = EntryType.debit)).foldl
      (fun acc e => acc + e.amount.amountMinor) 0
    let credits := (batch.entries.filter (fun e => ¬ e.entryType = EntryType.debit)).foldl
      (fun acc e => acc + e.amount.amountMinor) 0
    if debits ≠ batch.totalDebits.amountMinor ∨ credits ≠ batch.totalCredits.amountMinor then
      .error "entry totals do not match batch totals"
    else .ok ()

/-- `domain.BatchBuilder`. -/
structure BatchBuilder where
  batch : Batch
  entries : List Entry
  debits : Int
  credits : Int
  seq : Nat
  err : Option String
deriving DecidableEq

/-- `domain.NewBatchBuilder`. -/
def NewBatchBuilder (id tenantId : String) (sourceType : SourceType)
    (currency : String) : BatchBuilder :=
  if id = "" ∨ tenantId = "" then
    { batch := ⟨"", "", "", "", sourceType, "", Money.Zero currency, Money.Zero currency,
        0, .pending, []⟩
      entries := [], debits := 0, credits := 0, seq := 0
      err := some "id and tenant_id are required" }
  else
    { batch := ⟨id, tenantId, "", "", sourceType, "", Money.Zero currency,
        Money.Zero currency, 0, .pending, []⟩
      entries := [], debits := 0, credits := 0, seq := 0, err := none }

/-- `BatchBuilder.WithReference`. -/
def BatchBuilder.WithReference (b : BatchBuilder) (reference : String) : BatchBuilder :=
  if b.err.isSome then b else { b with batch := { b.batch with reference := reference } }

/-- `BatchBuilder.WithDescription`. -/
def BatchBuilder.WithDescription (b : BatchBuilder) (description : String) : BatchBuilder :=
  if b.err.isSome then b else { b with batch := { b.batch with description := description } }

/-- `BatchBuilder.WithSourceID`. -/
def BatchBuilder.WithSourceID (b : BatchBuilder) (sourceId : String) : BatchBuilder :=
  if b.err.isSome then b else { b with batch := { b.batch with sourceId := sourceId } }

/-- `BatchBuilder.Debit`: append a debit entry and accumulate the debit total. -/
def BatchBuilder.Debit (b : BatchBuilder) (entryId accountId : String)
    (amount : Money) (description : String) : BatchBuilder :=
  if b.err.isSome then b
  else if amount.currency ≠ b.batch.totalDebits.currency then
    { b with err := some "entry currency must match batch currency" }
  else
    let seq := b.seq + 1
    match NewEntry entryId b.batch.id accountId .debit amount seq with
    | .error e => { b with err := some e, seq := seq }
    | .ok entry =>
        { b with entries := b.entries ++ [{ entry with description := description }]
                 debits := b.debits + amount.amountMinor
                 seq := seq }

/-- `BatchBuilder.Credit`: append a credit entry and accumulate the credit total. -/
def BatchBuilder.Credit (b : BatchBuilder) (entryId accountId : String)
    (amount : Money) (description : String) : BatchBuilder :=
  if b.err.isSome then b
  else if amount.currency ≠ b.batch.totalCredits.currency then
    { b with err := some "entry currency must match batch currency" }
  else
    let seq := b.seq + 1
    match NewEntry entryId b.batch.id accountId .credit amount seq with
    | .error e => { b with err := some e, seq := seq }
    | .ok entry =>
        { b with entries := b.entries ++ [{ entry with description := description }]
                 credits := b.credits + amount.amountMinor
                 seq := seq }

/-- `BatchBuilder.Build`: validate balance and produce the batch. -/
def BatchBuilder.Build (b : BatchBuilder) : Except String Batch :=
  match b.err with
  | some e => .error e
  | none =>
    if b.entries.length = 0 then .error "batch must have at least one entry"
    else if b.debits ≠ b.credits then
      .error "batch must be balanced (debits must equal credits)"
    else
      .ok { b.batch with
            totalDebits := { b.batch.totalDebits with amountMinor := b.debits }
            totalCredits := { b.batch.totalCredits with amountMinor := b.credits }
            entryCount := b.entries.length
            entries := b.entries }

/-- `domain.CalculateBalance`: balance of an account over a list of entries. -/
def CalculateBalance (account : Account) (entries : List Entry) : Int :=
  entries.foldl
    (fun balance entry =>
      if entry.accountId ≠ account.id then balance
      else if account.normalBalance = NormalBalance.debit then
        if entry.entryType = EntryType.debit then balance + entry.amount.amountMinor
        else balance - entry.amount.amountMinor
      else
        if entry.entryType = EntryType.credit then balance + entry.amount.amountMinor
        else balance - entry.amount.amountMinor)
    0

/-! ## Ledger store (`internal/ledger/store`) and service (`internal/ledger`)

The database is modelled as lists of rows in insertion (= `created_at`) order.
Batch rows are stored without their entries (as `scanBatch` reads them);
entries live in a separate table. -/

/-- The ledger database: `ledger_accounts`, `ledger_batches`, `ledger_entries`. -/
structure LedgerState where
  accounts : List Account
  batches : List Batch
  entries : List Entry
deriving DecidableEq

/-- The balance subquery used by `Store.PostBatch` and `Store.GetAccountBalance`:
`SELECT COALESCE((SELECT balance_after FROM ledger_entries WHERE account_id = $1
AND balance_after IS NOT NULL ORDER BY created_at DESC LIMIT 1), 0)`. -/
def latestBalanceAfter (entries : List Entry) (accountId : String) : Int :=
  match (entries.filter (fun e => e.accountId == accountId && e.balanceAfter.isSome)).getLast? with
  | some e => e.balanceAfter.getD 0
  | none => 0

/-- `UPDATE ledger_entries SET balance_after = $1 WHERE id = $2`. -/
def updateEntryBalance (entries : List Entry) (entryId : String) (newBalance : Int) :
    List Entry :=
  entries.map (fun e => if e.id == entryId then { e with balanceAfter := some newBalance } else e)

/-- `SELECT normal_balance FROM ledger_accounts WHERE id = $1` (no tenant filter). -/
def normalBalanceOf (accounts : List Account) (accountId : String) : NormalBalance :=
  match accounts.find? (fun a => a.id == accountId) with
  | some account => account.normalBalance
  | none => .debit

/-- The per-entry loop of `Store.PostBatch`: read the account's current balance,
apply the normal-balance rule, and write `balance_after` on the entry. -/
def updateBalances (st : LedgerState) : List Entry → Except String LedgerState
  | [] => .ok st
  | entry :: rest =>
    let currentBalance := latestBalanceAfter st.entries entry.accountId
    match st.accounts.find? (fun a => a.id == entry.accountId) with
    | none => .error "getting account: no rows in result set"
    | some account =>
      let newBalance :=
        if account.normalBalance = NormalBalance.debit then
          if entry.entryType = EntryType.debit then currentBalance + entry.amount.amountMinor
          else currentBalance - entry.amount.amountMinor
        else
          if entry.entryType = EntryType.credit then currentBalance + entry.amount.amountMinor
          else currentBalance - entry.amount.amountMinor
      updateBalances
        { st with entries := updateEntryBalance st.entries entry.id newBalance } rest

/-- Insertion step for the `ORDER BY sequence` read in `getEntriesTx`. -/
def insertBySequence (e : Entry) : List Entry → List Entry
  | [] => [e]
  | x :: xs => if e.sequence ≤ x.sequence then e :: x :: xs else x :: insertBySequence e xs

/-- `ORDER BY sequence` on the entries of a batch. -/
def sortBySequence : List Entry → List Entry
  | [] => []
  | x :: xs => insertBySequence x (sortBySequence xs)

/-- `Store.CreateBatchTx`: validate, insert the batch row, insert all entries. -/
def CreateBatchTx (st : LedgerState) (batch : Batch) : Except String LedgerState :=
  match batch.Validate with
  | .error e => .error e
  | .ok _ =>
    .ok { st with batches := st.batches ++ [{ batch with entries := [] }]
                  entries := st.entries ++ batch.entries }

/-- `Store.PostBatch`: inside a serializable transaction, lock the batch, check
it is pending, compute `balance_after` entry by entry, and mark it posted. -/
def PostBatch (st : LedgerState) (tenantId batchId userId : String) :
    Except String LedgerState :=
  match st.batches.find? (fun b => b.tenantId == tenantId && b.id == batchId) with
  | none => .error "not found"
  | some batch =>
    if batch.status ≠ BatchStatus.pending then .error "batch is not pending"
    else
      let es := sortBySequence (st.entries.filter (fun e => e.batchId == batchId))
      match updateBalances st es with
      | .error e => .error e
      | .ok st1 =>
        let posted := st1.batches.map
          (fun b => if b.id == batchId then { b with status := BatchStatus.posted } else b)
        .ok { st1 with batches := posted }

/-- `Store.GetAccountBalance`: the COALESCE balance query; it involves no row
in `ledger_accounts`, so it cannot fail on an unknown account id. -/
def GetAccountBalance (st : LedgerState) (accountId : String) : Except String Int :=
  .ok (latestBalanceAfter st.entries accountId)

/-- `Store.GetBatchWithEntries`: the batch row plus its entries by sequence. -/
def GetBatchWithEntries (st : LedgerState) (tenantId batchId : String) :
    Except String Batch :=
  match st.batches.find? (fun b => b.tenantId == tenantId && b.id == batchId) with
  | none => .error "not found"
  | some batch =>
    .ok { batch with entries := sortBySequence (st.entries.filter (fun e => e.batchId == batchId)) }

/-- Transaction isolation levels used by the service
(`DefaultTxOptions` is read-committed, `SerializableTxOptions` serializable). -/
inductive IsoLevel where
  | readCommitted
  | serializable
deriving DecidableEq

/-- `ledger.EntryRequest`, one entry of a `PostEntriesRequest`. -/
structure EntryRequest where
  accountId : String
  entryType : EntryType
  amount : Int
  description : String
deriving DecidableEq

/-- `ledger.PostEntriesRequest`. -/
structure PostEntriesRequest where
  tenantId : String
  reference : String
  description : String
  sourceType : SourceType
  sourceId : String
  currency : String
  entries : List EntryRequest
deriving DecidableEq

/-- The builder loop of `Service.PostEntries`: one `Debit`/`Credit` call per
requested entry, with a fresh ULID per entry. -/
def buildEntries (currency : String) (gen : Nat) (b : BatchBuilder) :
    List EntryRequest → BatchBuilder
  | [] => b
  | e :: rest =>
    let entryId := idStr gen
    let amount := Money.New e.amount currency
    let b1 :=
      if e.entryType = EntryType.debit then b.Debit entryId e.accountId amount e.description
      else b.Credit entryId e.accountId amount e.description
    buildEntries currency (gen + 1) b1 rest

/-- The builder phase of `Service.PostEntries`: a `BatchBuilder` seeded with a
fresh batch ULID and fed one `Debit`/`Credit` call per requested entry. -/
def postEntriesBuilder (gen : Nat) (req : PostEntriesRequest) : BatchBuilder :=
  let batchId := idStr gen
  let builder0 :=
    (((NewBatchBuilder batchId req.tenantId req.sourceType req.currency).WithReference
        req.reference).WithDescription req.description).WithSourceID req.sourceId
  buildEntries req.currency (gen + 1) builder0 req.entries

/-- `Service.PostEntries`: build the batch, insert it in a default
(read-committed) transaction, then compute balances and mark it posted in a
second, serializable transaction, and re-read the posted batch.  The returned
list records the isolation level of each transaction begun, in order; the
`serFail` flag injects a serialization failure into the serializable
transaction (the code surfaces it without any retry). -/
def PostEntries (gen : Nat) (serFail : Bool) (st : LedgerState)
    (req : PostEntriesRequest) : Except String Batch × LedgerState × List IsoLevel :=
  let batchId := idStr gen
  let builder := postEntriesBuilder gen req
  match builder.Build with
  | .error e => (.error ("building batch: " ++ e), st, [])
  | .ok batch =>
    match CreateBatchTx st batch with
    | .error e => (.error e, st, [.readCommitted])
    | .ok st1 =>
      if serFail then
        (.error "posting batch: serialization failure", st1, [.readCommitted, .serializable])
      else
        match PostBatch st1 req.tenantId batchId "" with
        | .error e => (.error ("posting batch: " ++ e), st1, [.readCommitted, .serializable])
        | .ok st2 =>
          match GetBatchWithEntries st2 req.tenantId batchId with
          | .error e => (.error e, st2, [.readCommitted, .serializable])
          | .ok batch2 => (.ok batch2, st2, [.readCommitted, .serializable])

/-! ## The `database.Retry` helper (`internal/common/database`) -/

/-- Errors distinguished by `database.Retry`. -/
inductive DBError where
  | serializationFailure
  | other (msg : String)
deriving DecidableEq

/-- Outcome of `database.Retry`. -/
inductive RetryResult where
  | success
  | failed (e : DBError)
  | maxRetriesExceeded
deriving DecidableEq

/-- The attempt loop of `database.Retry`; `fuel` is the number of attempts
still allowed (the Go loop runs `attempt = 1 .. maxAttempts`), and the second
component collects the sleeps, in milliseconds, performed between attempts
(`time.After(time.Duration(attempt*10) * time.Millisecond)` — note the LINEAR
`attempt*10`, and that the loop sleeps even after its last failed attempt). -/
def RetryAux (fn : Nat → Except DBError Unit) :
    Nat → Nat → List Nat → RetryResult × List Nat
  | 0, _, sleeps => (.maxRetriesExceeded, sleeps)
  | fuel + 1, attempt, sleeps =>
    match fn attempt with
    | .ok _ => (.success, sleeps)
    | .error e =>
      if e = DBError.serializationFailure then
        RetryAux fn fuel (attempt + 1) (sleeps ++ [attempt * 10])
      else (.failed e, sleeps)

/-- `database.Retry(ctx, maxAttempts, fn)`. -/
def Retry (maxAttempts : Nat) (fn : Nat → Except DBError Unit) : RetryResult × List Nat :=
  RetryAux fn maxAttempts 1 []

/-! ## Funding domain (`internal/funding/intent.go`) -/

/-- `funding.Method`. -/
inductive Method where
  | openBanking
  | sepa
  | fps
  | card
  | ach
deriving DecidableEq

/-- The string value of a `funding.Method` constant. -/
def methodString : Method → String
  | .openBanking => "OPEN_BANKING"
  | .sepa => "SEPA"
  | .fps => "FPS"
  | .card => "CARD"
  | .ach => "ACH"

/-- `funding.IntentStatus`. -/
inductive IntentStatus where
  | created
  | pending
  | settled
  | failed
  | expired
  | reversed
deriving DecidableEq

/-- `funding.BankDetails`. -/
structure BankDetails where
  iban : String
  sortCode : String
  accountNumber : String
  bic : String
  reference : String
deriving DecidableEq

/-- `funding.FundingIntent` (the fields the orchestrator reads and writes). -/
structure FundingIntent where
  id : String
  tenantId : String
  walletId : String
  customerId : String
  amount : Money
  method : Method
  status : IntentStatus
  idempotencyKey : String
  providerRef : String
  redirectURL : String
  bankDetails : Option BankDetails
  paymentSession : String
  settledAt : Option Nat
  reversedAt : Option Nat
  reversalReason : String
  ledgerBatchId : String
  errorCode : String
  errorMessage : String
  metadata : List (String × String)
  createdAt : Nat
  updatedAt : Nat
  expiresAt : Option Nat
deriving DecidableEq

/-- `funding.NewFundingIntent` with its validations and the 24 h default
expiry (times in seconds). -/
def NewFundingIntent (id tenantId walletId customerId : String) (amount : Money)
    (method : Method) (idempotencyKey : String) (now : Nat) :
    Except String FundingIntent :=
  if id = "" then .error "id is required"
  else if tenantId = "" then .error "tenant_id is required"
  else if walletId = "" then .error "wallet_id is required"
  else if amount.amountMinor ≤ 0 then .error "amount must be positive"
  else if idempotencyKey = "" then .error "idempotency_key is required"
  else
    .ok { id := id, tenantId := tenantId, walletId := walletId, customerId := customerId
          amount := amount, method := method, status := .created
          idempotencyKey := idempotencyKey
          providerRef := "", redirectURL := "", bankDetails := none, paymentSession := ""
          settledAt := none, reversedAt := none, reversalReason := ""
          ledgerBatchId := "", errorCode := "", errorMessage := "", metadata := []
          createdAt := now, updatedAt := now, expiresAt := some (now + 86400) }

/-- `FundingIntent.MarkPending`: only a created intent may become pending. -/
def MarkPending (i : FundingIntent) (providerRef : String) (now : Nat) :
    Except String FundingIntent :=
  if i.status ≠ IntentStatus.created then
    .error "can only mark created intents as pending"
  else
    .ok { i with status := .pending, providerRef := providerRef, updatedAt := now }

/-- `FundingIntent.MarkSettled`: only a pending intent may settle. -/
def MarkSettled (i : FundingIntent) (ledgerBatchId : String) (now : Nat) :
    Except String FundingIntent :=
  if i.status ≠ IntentStatus.pending then
    .error "can only settle pending intents"
  else
    .ok { i with status := .settled, ledgerBatchId := ledgerBatchId
                 settledAt := some now, updatedAt := now }

/-- `FundingIntent.MarkFailed`: rejected only for settled and reversed intents. -/
def MarkFailed (i : FundingIntent) (errorCode errorMessage : String) (now : Nat) :
    Except String FundingIntent :=
  if i.status = IntentStatus.settled ∨ i.status = IntentStatus.reversed then
    .error "cannot fail settled or reversed intent"
  else
    .ok { i with status := .failed, errorCode := errorCode
                 errorMessage := errorMessage, updatedAt := now }

/-- `FundingIntent.MarkReversed`: only a settled intent may reverse. -/
def MarkReversed (i : FundingIntent) (reason : String) (now : Nat) :
    Except String FundingIntent :=
  if i.status ≠ IntentStatus.settled then
    .error "can only reverse settled intents"
  else
    .ok { i with status := .reversed, reversedAt := some now
                 reversalReason := reason, updatedAt := now }

/-! ## Funding events (`internal/funding/events.go`) -/

/-- NATS subject constants. -/
def SubjectIntentCreated : String := "funding.intent.created"

/-- NATS subject for normalized funding updates. -/
def SubjectFundingUpdate : String := "funding.update"

/-- NATS subject for reconciliation mismatches. -/
def SubjectReconMismatch : String := "recon.mismatch.detected"

/-- `funding.EventType` constant `EventIntentCreated`. -/
def EventIntentCreated : String := "funding.intent.created"

/-- `funding.EventType` constant `EventFundingSettled`. -/
def EventFundingSettled : String := "funding.settled"

/-- `funding.EventType` constant `EventFundingFailed`. -/
def EventFundingFailed : String := "funding.failed"

/-- `funding.EventType` constant `EventFundingReversed`. -/
def EventFundingReversed : String := "funding.reversed"

/-- The payload structs serialized into an envelope's `data`. -/
inductive EventData where
  | intentCreated (intentId walletId customerId : String) (amount : Money)
      (method : Method) (idempotencyKey : String)
  | fundingUpdate (intentId walletId : String) (status : IntentStatus)
      (providerRef rail : String) (amount : Money) (settledAt : Option Nat)
  | reconMismatch (intentId statementRef : String) (expectedAmount actualAmount : Money)
      (mismatchType : String) (detectedAt : Nat)
deriving DecidableEq

/-- `funding.Envelope` (the envelope id is a fresh ULID). -/
structure Envelope where
  id : String
  type : String
  tenantId : String
  correlationId : String
  data : EventData
deriving DecidableEq

/-- `funding.LedgerPostCommand`. -/
structure LedgerPostCommand where
  intentId : String
  tenantId : String
  walletId : String
  amount : Money
  sourceType : String
  sourceId : String
  reference : String
  description : String
deriving DecidableEq

/-- `funding.InboundCreditEvent`. -/
structure InboundCreditEvent where
  statementId : String
  rail : String
  reference : String
  amount : Money
  senderName : String
  senderAccount : String
deriving DecidableEq

/-! ## Funding store and service (`internal/funding/types.go`, `service.go`)

State: the `funding_intents` table plus observable side effects — the events
published to NATS and the `LedgerPostCommand`s sent to the ledger client. -/

/-- Funding-side state: intents plus the two effect traces. -/
structure FundingState where
  intents : List FundingIntent
  published : List (String × Envelope)
  ledgerPosts : List LedgerPostCommand
deriving DecidableEq

/-- `PostgresStore.GetIntent`:
`WHERE id = $1 AND (tenant_id = $2 OR $2 = '')`. -/
def GetIntent (st : FundingState) (tenantId intentId : String) : Option FundingIntent :=
  st.intents.find? (fun i => i.id == intentId && (i.tenantId == tenantId || tenantId == ""))

/-- `PostgresStore.GetIntentByIdempotencyKey`:
`WHERE tenant_id = $1 AND idempotency_key = $2`. -/
def GetIntentByIdempotencyKey (st : FundingState) (tenantId key : String) :
    Option FundingIntent :=
  st.intents.find? (fun i => i.tenantId == tenantId && i.idempotencyKey == key)

/-- `PostgresStore.GetIntentByReference`:
`WHERE tenant_id = $1 AND bank_details->>'reference' = $2`. -/
def GetIntentByReference (st : FundingState) (tenantId reference : String) :
    Option FundingIntent :=
  st.intents.find? (fun i =>
    i.tenantId == tenantId &&
      (match i.bankDetails with
       | some bd => bd.reference == reference
       | none => false))

/-- `PostgresStore.UpdateIntent`: `UPDATE funding_intents SET ... WHERE id = $1`. -/
def UpdateIntent (st : FundingState) (intent : FundingIntent) : FundingState :=
  { st with intents := st.intents.map (fun i => if i.id == intent.id then intent else i) }

/-- External collaborators of `funding.Service`: the Open Banking provider's
`Initiate` (returning auth URL and provider ref) and the ledger client's
`PostFunding` (returning the posted batch id). -/
structure ServiceEnv where
  obInitiate : FundingIntent → Except String (String × String)
  postFunding : LedgerPostCommand → Except String String

/-- `funding.CreateIntentRequest`. -/
structure CreateIntentRequest where
  tenantId : String
  walletId : String
  customerId : String
  amount : Money
  method : Method
  idempotencyKey : String
  returnURL : String
  metadata : List (String × String)
deriving DecidableEq

/-- `funding.CreateIntentResponse`. -/
structure CreateIntentResponse where
  intentId : String
  status : IntentStatus
  redirectURL : String
  bankDetails : Option BankDetails
  paymentSession : String
deriving DecidableEq

/-- `Service.CreateIntent`: idempotency check, per-method initialization,
store, publish `funding.intent.created`.  `gen` feeds the ULIDs (intent id,
then envelope id). -/
def CreateIntent (env : ServiceEnv) (now gen : Nat) (st : FundingState)
    (req : CreateIntentRequest) : Except String CreateIntentResponse × FundingState :=
  match GetIntentByIdempotencyKey st req.tenantId req.idempotencyKey with
  | some existing =>
    (.ok { intentId := existing.id, status := existing.status
           redirectURL := existing.redirectURL, bankDetails := existing.bankDetails
           paymentSession := existing.paymentSession }, st)
  | none =>
    let intentId := idStr gen
    match NewFundingIntent intentId req.tenantId req.walletId req.customerId req.amount
        req.method req.idempotencyKey now with
    | .error e => (.error ("create intent: " ++ e), st)
    | .ok intent0 =>
      let intent0 := { intent0 with metadata := req.metadata }
      let initialized : Except String (FundingIntent × CreateIntentResponse) :=
        match req.method with
        | .openBanking =>
          match env.obInitiate intent0 with
          | .error e => .error ("initiate open banking: " ++ e)
          | .ok (authURL, providerRef) =>
            let intent1 : FundingIntent :=
              { intent0 with redirectURL := authURL, providerRef := providerRef,
                             status := .pending }
            let resp1 : CreateIntentResponse :=
              { intentId := intentId, status := .pending, redirectURL := authURL,
                bankDetails := none, paymentSession := "" }
            .ok (intent1, resp1)
        | .sepa =>
          let reference := "W3G8-" ++ intentId.take 8
          let bd : BankDetails :=
            { iban := "GB82WEST12345698765432", sortCode := "123456"
              accountNumber := "98765432", bic := "", reference := reference }
          .ok ({ intent0 with bankDetails := some bd },
               { intentId := intentId, status := .created, redirectURL := ""
                 bankDetails := some bd, paymentSession := "" })
        | .fps =>
          let reference := "W3G8-" ++ intentId.take 8
          let bd : BankDetails :=
            { iban := "GB82WEST12345698765432", sortCode := "123456"
              accountNumber := "98765432", bic := "", reference := reference }
          .ok ({ intent0 with bankDetails := some bd },
               { intentId := intentId, status := .created, redirectURL := ""
                 bankDetails := some bd, paymentSession := "" })
        | .card =>
          .ok ({ intent0 with paymentSession := "session_" ++ intentId },
               { intentId := intentId, status := .created, redirectURL := ""
                 bankDetails := none, paymentSession := "session_" ++ intentId })
        | .ach =>
          .ok (intent0,
               { intentId := intentId, status := .created, redirectURL := ""
                 bankDetails := none, paymentSession := "" })
      match initialized with
      | .error e => (.error e, st)
      | .ok (intent, resp) =>
        let created : Envelope :=
          { id := idStr (gen + 1), type := EventIntentCreated, tenantId := intent.tenantId
            correlationId := intent.id
            data := .intentCreated intent.id intent.walletId intent.customerId
              intent.amount intent.method intent.idempotencyKey }
        (.ok resp,
         { st with intents := st.intents ++ [intent]
                   published := st.published ++ [(SubjectIntentCreated, created)] })

/-- `Service.settleIntent`: build the `LedgerPostCommand`, invoke the ledger
client, then `MarkSettled`, store the update, and publish `funding.settled`.
The command is recorded in `ledgerPosts` when `PostFunding` is invoked. -/
def settleIntent (env : ServiceEnv) (now gen : Nat) (st : FundingState)
    (intent : FundingIntent) : Except String Unit × FundingState :=
  let cmd : LedgerPostCommand :=
    { intentId := intent.id, tenantId := intent.tenantId, walletId := intent.walletId
      amount := intent.amount, sourceType := methodString intent.method
      sourceId := intent.id, reference := intent.providerRef
      description := "Wallet funding via " ++ methodString intent.method }
  let st1 := { st with ledgerPosts := st.ledgerPosts ++ [cmd] }
  match env.postFunding cmd with
  | .error e => (.error ("post to ledger: " ++ e), st1)
  | .ok batchId =>
    match MarkSettled intent batchId now with
    | .error e => (.error e, st1)
    | .ok intent2 =>
      let st2 := UpdateIntent st1 intent2
      let ev : Envelope :=
        { id := idStr gen, type := EventFundingSettled, tenantId := intent2.tenantId
          correlationId := intent2.id
          data := .fundingUpdate intent2.id intent2.walletId .settled intent2.providerRef
            (methodString intent2.method) intent2.amount intent2.settledAt }
      (.ok (), { st2 with published := st2.published ++ [(SubjectFundingUpdate, ev)] })

/-- `Service.ProcessInboundCredit`: match by reference under the stubbed
tenant `"default"`; on amount mismatch publish the mismatch envelope (type
`funding.failed`) on subject `recon.mismatch.detected` and fail; otherwise
settle. -/
def ProcessInboundCredit (env : ServiceEnv) (now gen : Nat) (st : FundingState)
    (event : InboundCreditEvent) : Except String Unit × FundingState :=
  let tenantId := "default"
  match GetIntentByReference st tenantId event.reference with
  | none => (.ok (), st)
  | some intent =>
    if intent.amount.amountMinor ≠ event.amount.amountMinor then
      let mismatch : Envelope :=
        { id := idStr gen, type := EventFundingFailed, tenantId := intent.tenantId
          correlationId := intent.id
          data := .reconMismatch intent.id event.reference intent.amount event.amount
            "amount" now }
      (.error "amount mismatch",
       { st with published := st.published ++ [(SubjectReconMismatch, mismatch)] })
    else
      settleIntent env now gen st intent

/-- `Service.ProcessCardPayment`: look up with the empty tenant; on
`captured = false` call `MarkFailed` (its error is ignored by the source) and
store; on capture set the provider ref and settle. -/
def ProcessCardPayment (env : ServiceEnv) (now gen : Nat) (st : FundingState)
    (intentId transactionId : String) (captured : Bool) :
    Except String Unit × FundingState :=
  match GetIntent st "" intentId with
  | none => (.error "intent not found", st)
  | some intent =>
    if captured = false then
      let intent2 :=
        match MarkFailed intent "CARD_DECLINED" "Card payment was not captured" now with
        | .ok j => j
        | .error _ => intent
      (.ok (), UpdateIntent st intent2)
    else
      settleIntent env now gen st { intent with providerRef := transactionId }

/-- `Service.ProcessChargeback`: look up with the empty tenant, `MarkReversed`,
store, publish `funding.reversed`.  The source's `TODO: Post reversal to
ledger` means no ledger command is issued here. -/
def ProcessChargeback (env : ServiceEnv) (now gen : Nat) (st : FundingState)
    (intentId reason : String) : Except String Unit × FundingState :=
  match GetIntent st "" intentId with
  | none => (.error "intent not found", st)
  | some intent =>
    match MarkReversed intent reason now with
    | .error e => (.error e, st)
    | .ok intent2 =>
      let st1 := UpdateIntent st intent2
      let ev : Envelope :=
        { id := idStr gen, type := EventFundingReversed, tenantId := intent2.tenantId
          correlationId := intent2.id
          data := .fundingUpdate intent2.id intent2.walletId .reversed intent2.providerRef
            (methodString intent2.method) intent2.amount none }
      (.ok (), { st1 with published := st1.published ++ [(SubjectFundingUpdate, ev)] })

/-! ## Totals of a post request and behaviour of the builder fold -/

/-- Debit total of a `PostEntriesRequest`, as in the claim "the entries'
debit total". -/
def reqDebitTotal : List EntryRequest → Int
  | [] => 0
  | e :: rest => (if e.entryType = EntryType.debit then e.amount else 0) + reqDebitTotal rest

/-- Credit total of a `PostEntriesRequest`. -/
def reqCreditTotal : List EntryRequest → Int
  | [] => 0
  | e :: rest => (if e.entryType = EntryType.credit then e.amount else 0) + reqCreditTotal rest

theorem buildEntries_err_propagates (c : String) (es : List EntryRequest) :
    ∀ (g : Nat) (b : BatchBuilder), b.err.isSome → buildEntries c g b es = b := by
  induction es with
  | nil => intro g b _; rfl
  | cons e rest ih =>
    intro g b hb
    have hd : (if e.entryType = EntryType.debit
        then b.Debit (idStr g) e.accountId (Money.New e.amount c) e.description
        else b.Credit (idStr g) e.accountId (Money.New e.amount c) e.description) = b := by
      split <;> simp [BatchBuilder.Debit, BatchBuilder.Credit, hb]
    simp only [buildEntries, hd]
    exact ih (g + 1) b hb

theorem buildEntries_totals (c : String) (es : List EntryRequest) :
    ∀ (g : Nat) (b : BatchBuilder), b.err = none →
    (buildEntries c g b es).err = none →
    (buildEntries c g b es).debits = b.debits + reqDebitTotal es ∧
    (buildEntries c g b es).credits = b.credits + reqCreditTotal es := by
  induction es with
  | nil => intro g b _ _; simp [buildEntries, reqDebitTotal, reqCreditTotal]
  | cons e rest ih =>
    intro g b hb hres
    by_cases hdeb : e.entryType = EntryType.debit
    · simp only [buildEntries, hdeb, if_true] at hres ⊢
      set b1 := b.Debit (idStr g) e.accountId (Money.New e.amount c) e.description with hb1
      by_cases herr : b1.err.isSome
      · rw [buildEntries_err_propagates c rest (g + 1) b1 herr] at hres
        rw [hres] at herr; simp at herr
      · have hb1n : b1.err = none := by
          cases h1 : b1.err with
          | none => rfl
          | some v => rw [h1] at herr; simp at herr
        have hstep : b1.debits = b.debits + e.amount ∧ b1.credits = b.credits ∧
            b1.err = none := by
          rw [hb1]
          unfold BatchBuilder.Debit
          simp only [hb, Option.isSome_none, Bool.false_eq_true, if_false]
          split
          · rw [hb1, BatchBuilder.Debit, hb] at hb1n
            simp only [Option.isSome_none, Bool.false_eq_true, if_false] at hb1n
            split at hb1n <;> simp_all
          · split
            case h_1 heq =>
              rw [hb1, BatchBuilder.Debit, hb] at hb1n
              simp only [Option.isSome_none, Bool.false_eq_true, if_false] at hb1n
              split at hb1n <;> simp_all
            case h_2 entry heq => simp [Money.New]
        obtain ⟨hd, hc2, _⟩ := hstep
        obtain ⟨ihd, ihc⟩ := ih (g + 1) b1 hb1n hres
        constructor
        · rw [ihd, hd, reqDebitTotal, if_pos hdeb]; ring
        · rw [ihc, hc2, reqCreditTotal]
          have hne : ¬ e.entryType = EntryType.credit := by
            rw [hdeb]; intro hcon; cases hcon
          rw [if_neg hne]; ring
    · have hcred : e.entryType = EntryType.credit := by
        cases h : e.entryType
        · exact absurd h hdeb
        · rfl
      simp only [buildEntries, hdeb, if_false] at hres ⊢
      set b1 := b.Credit (idStr g) e.accountId (Money.New e.amount c) e.description with hb1
      by_cases herr : b1.err.isSome
      · rw [buildEntries_err_propagates c rest (g + 1) b1 herr] at hres
        rw [hres] at herr; simp at herr
      · have hb1n : b1.err = none := by
          cases h1 : b1.err with
          | none => rfl
          | some v => rw [h1] at herr; simp at herr
        have hstep : b1.credits = b.credits + e.amount ∧ b1.debits = b.debits ∧
            b1.err = none := by
          rw [hb1]
          unfold BatchBuilder.Credit
          simp only [hb, Option.isSome_none, Bool.false_eq_true, if_false]
          split
          · rw [hb1, BatchBuilder.Credit, hb] at hb1n
            simp only [Option.isSome_none, Bool.false_eq_true, if_false] at hb1n
            split at hb1n <;> simp_all
          · split
            case h_1 heq =>
              rw [hb1, BatchBuilder.Credit, hb] at hb1n
              simp only [Option.isSome_none, Bool.false_eq_true, if_false] at hb1n
              split at hb1n <;> simp_all
            case h_2 entry heq => simp [Money.New]
        obtain ⟨hc2, hd, _⟩ := hstep
        obtain ⟨ihd, ihc⟩ := ih (g + 1) b1 hb1n hres
        constructor
        · rw [ihd, hd, reqDebitTotal, if_neg hdeb]; ring
        · rw [ihc, hc2, reqCreditTotal, if_pos hcred]; ring

theorem buildEntries_valid (c : String) (es : List EntryRequest) :
    ∀ (g : Nat) (b : BatchBuilder), b.err = none →
    b.batch.id ≠ "" →
    b.batch.totalDebits.currency = c →
    b.batch.totalCredits.currency = c →
    (∀ e ∈ es, 0 < e.amount ∧ e.accountId ≠ "") →
    (buildEntries c g b es).err = none ∧
    (buildEntries c g b es).entries.length = b.entries.length + es.length := by
  induction es with
  | nil => intro g b hb _ _ _ _; simp [buildEntries, hb]
  | cons e rest ih =>
    intro g b hb hid hdc hcc hval
    obtain ⟨hpos, hacc⟩ := hval e (by simp)
    have hrest : ∀ x ∈ rest, 0 < x.amount ∧ x.accountId ≠ "" := by
      intro x hx; exact hval x (by simp [hx])
    by_cases hdeb : e.entryType = EntryType.debit
    · simp only [buildEntries, hdeb, if_true]
      set b1 := b.Debit (idStr g) e.accountId (Money.New e.amount c) e.description with hb1
      have hb1eq : b1 = { b with
          entries := b.entries ++
            [⟨idStr g, b.batch.id, e.accountId, .debit, Money.New e.amount c, none,
              e.description, b.seq + 1⟩]
          debits := b.debits + e.amount
          seq := b.seq + 1 } := by
        rw [hb1]
        unfold BatchBuilder.Debit
        rw [hb]
        simp only [Option.isSome_none, Bool.false_eq_true, if_false]
        rw [if_neg (by simp [Money.New, hdc])]
        unfold NewEntry
        rw [if_neg (idStr_ne_empty g), if_neg hid, if_neg hacc,
            if_neg (by simp [Money.New]; omega)]
        simp [Money.New]
      have := ih (g + 1) b1 (by rw [hb1eq]; exact hb) (by rw [hb1eq]; exact hid)
        (by rw [hb1eq]; exact hdc) (by rw [hb1eq]; exact hcc) hrest
      refine ⟨this.1, ?_⟩
      rw [this.2, hb1eq]
      simp [List.length_append]
      omega
    · have hcr : e.entryType = EntryType.credit := by
        cases h : e.entryType
        · exact absurd h hdeb
        · rfl
      simp only [buildEntries, hdeb, if_false]
      set b1 := b.Credit (idStr g) e.accountId (Money.New e.amount c) e.description with hb1
      have hb1eq : b1 = { b with
          entries := b.entries ++
            [⟨idStr g, b.batch.id, e.accountId, .credit, Money.New e.amount c, none,
              e.description, b.seq + 1⟩]
          credits := b.credits + e.amount
          seq := b.seq + 1 } := by
        rw [hb1]
        unfold BatchBuilder.Credit
        rw [hb]
        simp only [Option.isSome_none, Bool.false_eq_true, if_false]
        rw [if_neg (by simp [Money.New, hcc])]
        unfold NewEntry
        rw [if_neg (idStr_ne_empty g), if_neg hid, if_neg hacc,
            if_neg (by simp [Money.New]; omega)]
        simp [Money.New]
      have := ih (g + 1) b1 (by rw [hb1eq]; exact hb) (by rw [hb1eq]; exact hid)
        (by rw [hb1eq]; exact hdc) (by rw [hb1eq]; exact hcc) hrest
      refine ⟨this.1, ?_⟩
      rw [this.2, hb1eq]
      simp [List.length_append]
      omega

theorem builder0_eq (id tenantId : String) (stype : SourceType) (c r d s : String)
    (hid : id ≠ "") (ht : tenantId ≠ "") :
    (((NewBatchBuilder id tenantId stype c).WithReference r).WithDescription
        d).WithSourceID s =
      ⟨⟨id, tenantId, r, d, stype, s, ⟨0, c⟩, ⟨0, c⟩, 0, .pending, []⟩,
        [], 0, 0, 0, none⟩ := by
  unfold NewBatchBuilder
  rw [if_neg (by push_neg; exact ⟨hid, ht⟩)]
  simp [BatchBuilder.WithReference, BatchBuilder.WithDescription,
    BatchBuilder.WithSourceID, Money.Zero]

theorem postEntries_of_build_error (gen : Nat) (serFail : Bool) (st : LedgerState)
    (req : PostEntriesRequest) (msg : String)
    (h : (postEntriesBuilder gen req).Build = .error msg) :
    PostEntries gen serFail st req = (.error ("building batch: " ++ msg), st, []) := by
  simp only [PostEntries, h]

theorem Build_err_some (b : BatchBuilder) (m : String) (h : b.err = some m) :
    b.Build = .error m := by
  simp [BatchBuilder.Build, h]

/-- C1: for every PostEntries request whose entries' debit total does not equal
its credit total, PostEntries returns an error and leaves the ledger unchanged
(no batch row, no entry rows, and indeed no transaction is even begun); when
the request is otherwise well-formed the error is the UNBALANCED one, namely
"batch must be balanced (debits must equal credits)". -/
theorem ledger_C1_unbalanced_rejected (gen : Nat) (serFail : Bool) (st : LedgerState)
    (req : PostEntriesRequest)
    (h : reqDebitTotal req.entries ≠ reqCreditTotal req.entries) :
    (∃ msg, (PostEntries gen serFail st req).1 = .error msg) ∧
    (PostEntries gen serFail st req).2.1 = st ∧
    (PostEntries gen serFail st req).2.2 = [] ∧
    (req.tenantId ≠ "" → (∀ e ∈ req.entries, 0 < e.amount ∧ e.accountId ≠ "") →
      (PostEntries gen serFail st req).1 =
        .error "building batch: batch must be balanced (debits must equal credits)") := by
  have hkey : ∃ msg, (postEntriesBuilder gen req).Build = .error msg := by
    cases herr : (postEntriesBuilder gen req).err with
    | some m => exact ⟨m, Build_err_some _ m herr⟩
    | none =>
      by_cases ht : req.tenantId = ""
      · exfalso
        have hb0some :
            ((((NewBatchBuilder (idStr gen) req.tenantId req.sourceType
                req.currency).WithReference req.reference).WithDescription
                req.description).WithSourceID req.sourceId).err.isSome = true := by
          unfold NewBatchBuilder
          rw [if_pos (Or.inr ht)]
          simp [BatchBuilder.WithReference, BatchBuilder.WithDescription,
            BatchBuilder.WithSourceID]
        have hprop := buildEntries_err_propagates req.currency req.entries (gen + 1) _ hb0some
        have : (postEntriesBuilder gen req).err.isSome = true := by
          simp only [postEntriesBuilder]
          rw [hprop]
          exact hb0some
        rw [herr] at this
        simp at this
      · have hb0 := builder0_eq (idStr gen) req.tenantId req.sourceType req.currency
          req.reference req.description req.sourceId (idStr_ne_empty gen) ht
        have hpeb : postEntriesBuilder gen req =
            buildEntries req.currency (gen + 1)
              ⟨⟨idStr gen, req.tenantId, req.reference, req.description, req.sourceType,
                req.sourceId, ⟨0, req.currency⟩, ⟨0, req.currency⟩, 0, .pending, []⟩,
                [], 0, 0, 0, none⟩ req.entries := by
          simp only [postEntriesBuilder]
          rw [hb0]
        rw [hpeb] at herr
        have htot := buildEntries_totals req.currency req.entries (gen + 1) _ rfl herr
        by_cases hlen : (postEntriesBuilder gen req).entries.length = 0
        · refine ⟨"batch must have at least one entry", ?_⟩
          simp only [BatchBuilder.Build, hpeb, herr]
          rw [hpeb] at hlen
          rw [if_pos hlen]
        · refine ⟨"batch must be balanced (debits must equal credits)", ?_⟩
          have hdc : (buildEntries req.currency (gen + 1)
              ⟨⟨idStr gen, req.tenantId, req.reference, req.description, req.sourceType,
                req.sourceId, ⟨0, req.currency⟩, ⟨0, req.currency⟩, 0, .pending, []⟩,
                [], 0, 0, 0, none⟩ req.entries).debits ≠
              (buildEntries req.currency (gen + 1)
              ⟨⟨idStr gen, req.tenantId, req.reference, req.description, req.sourceType,
                req.sourceId, ⟨0, req.currency⟩, ⟨0, req.currency⟩, 0, .pending, []⟩,
                [], 0, 0, 0, none⟩ req.entries).credits := by
            rw [htot.1, htot.2]
            simpa using h
          simp only [BatchBuilder.Build, hpeb, herr]
          rw [hpeb] at hlen
          rw [if_neg hlen, if_pos hdc]
  obtain ⟨msg, hbuild⟩ := hkey
  have hres := postEntries_of_build_error gen serFail st req msg hbuild
  refine ⟨⟨"building batch: " ++ msg, by rw [hres]⟩, by rw [hres], by rw [hres], ?_⟩
  intro ht hval
  have hb0 := builder0_eq (idStr gen) req.tenantId req.sourceType req.currency
    req.reference req.description req.sourceId (idStr_ne_empty gen) ht
  have hpeb : postEntriesBuilder gen req =
      buildEntries req.currency (gen + 1)
        ⟨⟨idStr gen, req.tenantId, req.reference, req.description, req.sourceType,
          req.sourceId, ⟨0, req.currency⟩, ⟨0, req.currency⟩, 0, .pending, []⟩,
          [], 0, 0, 0, none⟩ req.entries := by
    simp only [postEntriesBuilder]
    rw [hb0]
  have hvalid := buildEntries_valid req.currency req.entries (gen + 1)
    ⟨⟨idStr gen, req.tenantId, req.reference, req.description, req.sourceType,
      req.sourceId, ⟨0, req.currency⟩, ⟨0, req.currency⟩, 0, .pending, []⟩,
      [], 0, 0, 0, none⟩ rfl (idStr_ne_empty gen) rfl rfl hval
  have htot := buildEntries_totals req.currency req.entries (gen + 1) _ rfl hvalid.1
  have hne : req.entries ≠ [] := by
    intro hnil
    rw [hnil] at h
    simp [reqDebitTotal, reqCreditTotal] at h
  have hlen : ¬ (buildEntries req.currency (gen + 1)
      ⟨⟨idStr gen, req.tenantId, req.reference, req.description, req.sourceType,
        req.sourceId, ⟨0, req.currency⟩, ⟨0, req.currency⟩, 0, .pending, []⟩,
        [], 0, 0, 0, none⟩ req.entries).entries.length = 0 := by
    rw [hvalid.2]
    simp
    intro hcon
    exact hne hcon
  have hdc : (buildEntries req.currency (gen + 1)
      ⟨⟨idStr gen, req.tenantId, req.reference, req.description, req.sourceType,
        req.sourceId, ⟨0, req.currency⟩, ⟨0, req.currency⟩, 0, .pending, []⟩,
        [], 0, 0, 0, none⟩ req.entries).debits ≠
      (buildEntries req.currency (gen + 1)
      ⟨⟨idStr gen, req.tenantId, req.reference, req.description, req.sourceType,
        req.sourceId, ⟨0, req.currency⟩, ⟨0, req.currency⟩, 0, .pending, []⟩,
        [], 0, 0, 0, none⟩ req.entries).credits := by
    rw [htot.1, htot.2]
    simpa using h
  have hbuild2 : (postEntriesBuilder gen req).Build =
      .error "batch must be balanced (debits must equal credits)" := by
    simp only [BatchBuilder.Build, hpeb, hvalid.1]
    rw [if_neg hlen, if_pos hdc]
  rw [postEntries_of_build_error gen serFail st req _ hbuild2]
  rfl

/-- Closed instance discharging the hypotheses of the C1 theorem on a concrete
unbalanced request (debit 100 vs credit 99). -/
theorem ledger_C1_witness :
    reqDebitTotal [⟨"A", .debit, 100, ""⟩, ⟨"B", .credit, 99, ""⟩] ≠
      reqCreditTotal [⟨"A", .debit, 100, ""⟩, ⟨"B", .credit, 99, ""⟩] ∧
    (PostEntries 0 false ⟨[], [], []⟩
      ⟨"t1", "", "", .deposit, "", "GBP",
        [⟨"A", .debit, 100, ""⟩, ⟨"B", .credit, 99, ""⟩]⟩).1 =
      .error "building batch: batch must be balanced (debits must equal credits)" ∧
    (PostEntries 0 false ⟨[], [], []⟩
      ⟨"t1", "", "", .deposit, "", "GBP",
        [⟨"A", .debit, 100, ""⟩, ⟨"B", .credit, 99, ""⟩]⟩).2.1 = ⟨[], [], []⟩ := by
  refine ⟨by decide, ?_, ?_⟩
  · exact (ledger_C1_unbalanced_rejected 0 false ⟨[], [], []⟩
      ⟨"t1", "", "", .deposit, "", "GBP",
        [⟨"A", .debit, 100, ""⟩, ⟨"B", .credit, 99, ""⟩]⟩ (by decide)).2.2.2
      (by decide) (by decide)
  · exact (ledger_C1_unbalanced_rejected 0 false ⟨[], [], []⟩
      ⟨"t1", "", "", .deposit, "", "GBP",
        [⟨"A", .debit, 100, ""⟩, ⟨"B", .credit, 99, ""⟩]⟩ (by decide)).2.1

/-! ## Claim C6: the intent lifecycle -/

/-- The transition table asserted by the claim: `created→pending→settled`,
`{created|pending}→failed`, `created→expired`, `settled→reversed`, and nothing
else. -/
def claimPermitted : IntentStatus → IntentStatus → Bool
  | .created, .pending => true
  | .pending, .settled => true
  | .created, .failed => true
  | .pending, .failed => true
  | .created, .expired => true
  | .settled, .reversed => true
  | _, _ => false

/-- The transition table the Mark functions actually implement: as the claim,
except that `MarkFailed` is rejected only for settled and reversed intents, so
`failed→failed` and `expired→failed` are also permitted. -/
def amendedPermitted : IntentStatus → IntentStatus → Bool
  | .created, .pending => true
  | .pending, .settled => true
  | .created, .failed => true
  | .pending, .failed => true
  | .failed, .failed => true
  | .expired, .failed => true
  | .created, .expired => true
  | .settled, .reversed => true
  | _, _ => false

/-- A concrete expired intent used to refute claim C6. -/
def intentExpiredW : FundingIntent :=
  { id := "i1", tenantId := "t1", walletId := "w1", customerId := "c1"
    amount := ⟨100, "GBP"⟩, method := .card, status := .expired
    idempotencyKey := "k1", providerRef := "", redirectURL := ""
    bankDetails := none, paymentSession := "", settledAt := none, reversedAt := none
    reversalReason := "", ledgerBatchId := "", errorCode := "", errorMessage := ""
    metadata := [], createdAt := 0, updatedAt := 0, expiresAt := none }

/-- Counterexample to C6: `MarkFailed` succeeds on an expired intent, although
expired→failed is not in the claim's permitted transition list (the claim says
every such attempt must fail and leave the intent unchanged). -/
theorem funding_C6_counterexample :
    (MarkFailed intentExpiredW "E1" "boom" 5).isOk = true ∧
    claimPermitted IntentStatus.expired IntentStatus.failed = false := by
  constructor
  · rfl
  · rfl

/-- C6 (amended): each Mark transition function succeeds exactly on the
transitions of the amended table — `MarkPending`: created→pending;
`MarkSettled`: pending→settled; `MarkFailed`: from any of created, pending,
failed, expired (it is rejected only for settled and reversed intents);
`MarkReversed`: settled→reversed.  Every other attempted Mark transition
returns an error (and the Go receiver is left unmutated on the error paths). -/
theorem funding_C6_amended (i : FundingIntent) (providerRef batchId ec em reason : String)
    (now : Nat) :
    (MarkPending i providerRef now).isOk = amendedPermitted i.status .pending ∧
    (MarkSettled i batchId now).isOk = amendedPermitted i.status .settled ∧
    (MarkFailed i ec em now).isOk = amendedPermitted i.status .failed ∧
    (MarkReversed i reason now).isOk = amendedPermitted i.status .reversed := by
  cases h : i.status <;>
    simp [MarkPending, MarkSettled, MarkFailed, MarkReversed, amendedPermitted, h,
      Except.isOk, Except.toBool]

/-! ## Claim C9: GetAccountBalance -/

/-- The balance described by the claim's words: the `balance_after` of the
most recent entry on the account, or 0 when the account has no entries. -/
def mostRecentBalance (entries : List Entry) (accountId : String) : Int :=
  match (entries.filter (fun e => e.accountId == accountId)).getLast? with
  | some e => e.balanceAfter.getD 0
  | none => 0

/-- Counterexample to C9: with an empty ledger there is no account "missing",
yet `GetAccountBalance` succeeds with 0 instead of failing with NOT_FOUND —
neither the store, the service, nor the HTTP handler checks account
existence. -/
theorem ledger_C9_counterexample :
    GetAccountBalance ⟨[], [], []⟩ "missing" = .ok 0 ∧
    (⟨[], [], []⟩ : LedgerState).accounts.find? (fun a => a.id == "missing") = none := by
  constructor
  · rfl
  · rfl

/-- C9 (amended): GetAccountBalance never fails; whenever every stored entry
carries a computed `balance_after` (i.e. all batches have been posted) it
returns exactly the `balance_after` of the account's most recent entry, or 0
when the account has no entries.  For an unknown account id it returns 0
rather than NOT_FOUND. -/
theorem ledger_C9_amended (st : LedgerState) (accountId : String)
    (h : ∀ e ∈ st.entries, e.balanceAfter.isSome) :
    GetAccountBalance st accountId = .ok (mostRecentBalance st.entries accountId) := by
  unfold GetAccountBalance latestBalanceAfter mostRecentBalance
  have hfeq : st.entries.filter (fun e => e.accountId == accountId && e.balanceAfter.isSome) =
      st.entries.filter (fun e => e.accountId == accountId) := by
    apply List.filter_congr
    intro x hx
    rw [h x hx]
    simp
  rw [hfeq]

/-- Closed instance discharging the hypothesis of the amended C9 theorem on a
ledger with two posted entries on account "A". -/
theorem ledger_C9_witness :
    GetAccountBalance
      ⟨[], [], [⟨"e1", "b1", "A", .debit, ⟨100, "GBP"⟩, some 100, "", 1⟩,
                ⟨"e2", "b1", "A", .credit, ⟨30, "GBP"⟩, some 70, "", 2⟩]⟩ "A" =
      .ok (mostRecentBalance
        [⟨"e1", "b1", "A", .debit, ⟨100, "GBP"⟩, some 100, "", 1⟩,
         ⟨"e2", "b1", "A", .credit, ⟨30, "GBP"⟩, some 70, "", 2⟩] "A") :=
  ledger_C9_amended
    ⟨[], [], [⟨"e1", "b1", "A", .debit, ⟨100, "GBP"⟩, some 100, "", 1⟩,
              ⟨"e2", "b1", "A", .credit, ⟨30, "GBP"⟩, some 70, "", 2⟩]⟩ "A" (by decide)

/-! ## Claim C10: the empty-tenant lookup -/

theorem find?_pointwise {α : Type} (p q : α → Bool) (l : List α)
    (h : ∀ a, p a = q a) : l.find? p = l.find? q := by
  have : p = q := funext h
  rw [this]

/-- C10: `PostgresStore.GetIntent` with the empty tenant string returns the
intent matching the id regardless of its `tenant_id` (the tenant filter
`tenant_id = $2 OR $2 = ''` collapses), and `ProcessChargeback` and
`ProcessCardPayment` look intents up exactly this way, so they operate on an
intent of any tenant. -/
theorem funding_C10_empty_tenant (env : ServiceEnv) (now gen : Nat) (st : FundingState)
    (intentId reason transactionId : String) (i : FundingIntent) :
    GetIntent st "" intentId = st.intents.find? (fun x => x.id == intentId) ∧
    (i.status = .settled →
      (ProcessChargeback env now gen ⟨[i], [], []⟩ i.id reason).1 = .ok ()) ∧
    (ProcessCardPayment env now gen ⟨[i], [], []⟩ i.id transactionId false).1 = .ok () := by
  refine ⟨?_, ?_, ?_⟩
  · unfold GetIntent
    apply find?_pointwise
    intro a
    simp
  · intro hs
    simp [ProcessChargeback, GetIntent, MarkReversed, hs]
  · simp [ProcessCardPayment, GetIntent]

/-- Closed instance discharging the hypothesis of the C10 theorem: a settled
intent of tenant "other-tenant" is found and reversed through the
empty-tenant lookup. -/
theorem funding_C10_witness :
    (ProcessChargeback ⟨fun _ => .error "unused", fun _ => .error "unused"⟩ 9 0
      ⟨[{ intentExpiredW with tenantId := "other-tenant", status := .settled }], [], []⟩
      "i1" "fraud").1 = .ok () :=
  (funding_C10_empty_tenant ⟨fun _ => .error "unused", fun _ => .error "unused"⟩ 9 0
    ⟨[{ intentExpiredW with tenantId := "other-tenant", status := .settled }], [], []⟩
    "i1" "fraud" "tx1"
    { intentExpiredW with tenantId := "other-tenant", status := .settled }).2.1 rfl

/-! ## Claim C7: amount mismatch on an inbound credit -/

/-- C7: when an inbound credit matches an intent by reference but its amount
differs from the intent's amount, `ProcessInboundCredit` settles nothing and
posts no ledger batch, leaves every intent row unchanged, and appends exactly
one event, published on subject "recon.mismatch.detected", whose payload
carries `mismatch_type = "amount"` with the expected (intent) and actual
(event) amounts. -/
theorem funding_C7_amount_mismatch (env : ServiceEnv) (now gen : Nat)
    (st : FundingState) (event : InboundCreditEvent) (intent : FundingIntent)
    (hmatch : GetIntentByReference st "default" event.reference = some intent)
    (hamt : intent.amount.amountMinor ≠ event.amount.amountMinor) :
    ProcessInboundCredit env now gen st event =
      (.error "amount mismatch",
        { st with published := st.published ++
            [(SubjectReconMismatch,
              ⟨idStr gen, EventFundingFailed, intent.tenantId, intent.id,
                .reconMismatch intent.id event.reference intent.amount event.amount
                  "amount" now⟩)] }) := by
  simp only [ProcessInboundCredit, hmatch]
  rw [if_pos hamt]

/-- A "default"-tenant FPS intent expecting 5000 GBP, used for claim C7. -/
def intentMismatchW : FundingIntent :=
  { intentExpiredW with
      tenantId := "default", status := .created, amount := ⟨5000, "GBP"⟩,
      method := .fps, bankDetails := some ⟨"", "", "", "", "W3G8-ref1"⟩ }

/-- The environment used by the funding witnesses. -/
def envW : ServiceEnv := ⟨fun _ => .error "unused", fun _ => .ok "b1"⟩

/-- Closed instance discharging the hypotheses of the C7 theorem: an FPS
intent of 5000 matched by an inbound credit of 4999. -/
theorem funding_C7_witness :
    ProcessInboundCredit envW 3 0 ⟨[intentMismatchW], [], []⟩
      ⟨"stmt1", "FPS", "W3G8-ref1", ⟨4999, "GBP"⟩, "", ""⟩ =
      (.error "amount mismatch",
        { intents := [intentMismatchW]
          published := [(SubjectReconMismatch,
            ⟨idStr 0, EventFundingFailed, "default", "i1",
              .reconMismatch "i1" "W3G8-ref1" ⟨5000, "GBP"⟩ ⟨4999, "GBP"⟩
                "amount" 3⟩)]
          ledgerPosts := [] }) := by
  have h := funding_C7_amount_mismatch envW 3 0 ⟨[intentMismatchW], [], []⟩
    ⟨"stmt1", "FPS", "W3G8-ref1", ⟨4999, "GBP"⟩, "", ""⟩ intentMismatchW
    (by decide) (by decide)
  rw [h]
  rfl

/-! ## Claim C3: settling a created intent -/

/-- A SEPA intent still in `created` (as `CreateIntent` leaves SEPA/FPS
intents) whose matching inbound credit has arrived. -/
def intentSepaCreatedW : FundingIntent :=
  { intentExpiredW with
      tenantId := "default", status := .created, amount := ⟨1000, "EUR"⟩,
      method := .sepa, bankDetails := some ⟨"", "", "", "", "W3G8-ref2"⟩ }

/-- C3 (code bug, evaluated at the failing input): a SEPA intent in `created`
is matched by an inbound credit of the exact amount; the settlement path then
POSTS THE LEDGER BATCH (the command is sent to the ledger client) but
`MarkSettled` rejects the intent because it is not `pending`, so
`ProcessInboundCredit` fails, the intent row is never updated and stays
`created`, and no `funding.settled` event is published — while the spec says
Settle succeeds for intents in `created` or `pending`. -/
theorem funding_C3_code_bug :
    intentSepaCreatedW.status = .created ∧
    ProcessInboundCredit envW 7 0 ⟨[intentSepaCreatedW], [], []⟩
        ⟨"stmt2", "SEPA", "W3G8-ref2", ⟨1000, "EUR"⟩, "", ""⟩ =
      (.error "can only settle pending intents",
        { intents := [intentSepaCreatedW]
          published := []
          ledgerPosts := [⟨"i1", "default", "w1", ⟨1000, "EUR"⟩, "SEPA", "i1", "",
            "Wallet funding via SEPA"⟩] }) := by
  constructor
  · rfl
  · rfl

/-! ## Claim C5: chargeback of a settled intent -/

/-- A settled card intent of 2500 USD whose settlement batch is
"batch-orig". -/
def intentSettledW : FundingIntent :=
  { intentExpiredW with
      status := .settled, method := .card, amount := ⟨2500, "USD"⟩,
      ledgerBatchId := "batch-orig", providerRef := "tx-1" }

/-- C5 (code bug, evaluated at the failing input): `ProcessChargeback` on a
settled intent does transition it settled→reversed recording the reason and
`reversed_at`, and publishes `funding.reversed` — but it posts NO compensating
ledger batch whatsoever (`ledgerPosts` stays empty; the source carries
`TODO: Post reversal to ledger`), while the claim and the spec require a
compensating batch with debits and credits swapped, source_type=chargeback. -/
theorem funding_C5_code_bug :
    intentSettledW.status = .settled ∧
    ProcessChargeback envW 11 0 ⟨[intentSettledW], [], []⟩ "i1" "fraud" =
      (.ok (),
        { intents := [{ intentSettledW with
            status := .reversed, reversedAt := some 11, reversalReason := "fraud",
            updatedAt := 11 }]
          published := [(SubjectFundingUpdate,
            ⟨idStr 0, EventFundingReversed, "t1", "i1",
              .fundingUpdate "i1" "w1" .reversed "tx-1" "CARD" ⟨2500, "USD"⟩ none⟩)]
          ledgerPosts := [] }) := by
  constructor
  · rfl
  · rfl

/-! ## Claim C4: idempotent CreateIntent -/

theorem NewFundingIntent_ok (id tenantId walletId customerId : String) (amount : Money)
    (method : Method) (key : String) (now : Nat) (intent : FundingIntent)
    (h : NewFundingIntent id tenantId walletId customerId amount method key now =
      .ok intent) :
    intent =
      { id := id, tenantId := tenantId, walletId := walletId, customerId := customerId
        amount := amount, method := method, status := .created, idempotencyKey := key
        providerRef := "", redirectURL := "", bankDetails := none, paymentSession := ""
        settledAt := none, reversedAt := none, reversalReason := "", ledgerBatchId := ""
        errorCode := "", errorMessage := "", metadata := [], createdAt := now
        updatedAt := now, expiresAt := some (now + 86400) } := by
  unfold NewFundingIntent at h
  split at h
  · simp at h
  · split at h
    · simp at h
    · split at h
      · simp at h
      · split at h
        · simp at h
        · split at h
          · simp at h
          · exact (Except.ok.inj h).symm

theorem CreateIntent_hit (env : ServiceEnv) (now gen : Nat) (st : FundingState)
    (req : CreateIntentRequest) (intent : FundingIntent)
    (h : GetIntentByIdempotencyKey st req.tenantId req.idempotencyKey = some intent) :
    CreateIntent env now gen st req =
      (.ok ⟨intent.id, intent.status, intent.redirectURL, intent.bankDetails,
        intent.paymentSession⟩, st) := by
  simp only [CreateIntent, h]

theorem CreateIntent_fresh_found (env : ServiceEnv) (now gen : Nat) (st0 st1 : FundingState)
    (req : CreateIntentRequest) (resp1 : CreateIntentResponse)
    (hlk : GetIntentByIdempotencyKey st0 req.tenantId req.idempotencyKey = none)
    (h1 : CreateIntent env now gen st0 req = (.ok resp1, st1)) :
    ∃ intentF,
      GetIntentByIdempotencyKey st1 req.tenantId req.idempotencyKey = some intentF ∧
      resp1 = ⟨intentF.id, intentF.status, intentF.redirectURL, intentF.bankDetails,
        intentF.paymentSession⟩ := by
  have hlkRaw : st0.intents.find?
      (fun i => i.tenantId == req.tenantId && i.idempotencyKey == req.idempotencyKey) =
        none := hlk
  simp only [CreateIntent, hlk] at h1
  split at h1
  · simp at h1
  · rename_i intent0 hn
    obtain rfl := NewFundingIntent_ok _ _ _ _ _ _ _ _ _ hn
    cases hm : req.method
    all_goals rw [hm] at h1
    case openBanking =>
      split at h1
      · simp at h1
      · rename_i intentF0 respF0 heq
        simp only [] at heq
        split at heq
        · exact absurd heq (by simp)
        · rename_i authURL providerRef hob
          injection heq with heq
          rw [Prod.mk.injEq] at heq
          obtain ⟨hI, hR⟩ := heq
          subst hI
          subst hR
          simp only [Prod.mk.injEq] at h1
          obtain ⟨ha, hb⟩ := h1
          injection ha with ha
          subst hb
          subst ha
          refine ⟨⟨idStr gen, req.tenantId, req.walletId, req.customerId, req.amount,
            .openBanking, .pending, req.idempotencyKey, providerRef, authURL, none, "",
            none, none, "", "", "", "", req.metadata, now, now, some (now + 86400)⟩,
            ?_, rfl⟩
          simp [GetIntentByIdempotencyKey, List.find?_append, hlkRaw, List.find?]
    case sepa =>
      simp only [Prod.mk.injEq] at h1
      obtain ⟨ha, hb⟩ := h1
      injection ha with ha
      subst hb
      subst ha
      refine ⟨⟨idStr gen, req.tenantId, req.walletId, req.customerId, req.amount,
        .sepa, .created, req.idempotencyKey, "", "",
        some ⟨"GB82WEST12345698765432", "123456", "98765432", "",
          "W3G8-" ++ (idStr gen).take 8⟩,
        "", none, none, "", "", "", "", req.metadata, now, now, some (now + 86400)⟩,
        ?_, rfl⟩
      simp [GetIntentByIdempotencyKey, List.find?_append, hlkRaw, List.find?]
    case fps =>
      simp only [Prod.mk.injEq] at h1
      obtain ⟨ha, hb⟩ := h1
      injection ha with ha
      subst hb
      subst ha
      refine ⟨⟨idStr gen, req.tenantId, req.walletId, req.customerId, req.amount,
        .fps, .created, req.idempotencyKey, "", "",
        some ⟨"GB82WEST12345698765432", "123456", "98765432", "",
          "W3G8-" ++ (idStr gen).take 8⟩,
        "", none, none, "", "", "", "", req.metadata, now, now, some (now + 86400)⟩,
        ?_, rfl⟩
      simp [GetIntentByIdempotencyKey, List.find?_append, hlkRaw, List.find?]
    case card =>
      simp only [Prod.mk.injEq] at h1
      obtain ⟨ha, hb⟩ := h1
      injection ha with ha
      subst hb
      subst ha
      refine ⟨⟨idStr gen, req.tenantId, req.walletId, req.customerId, req.amount,
        .card, .created, req.idempotencyKey, "", "", none, "session_" ++ idStr gen,
        none, none, "", "", "", "", req.metadata, now, now, some (now + 86400)⟩,
        ?_, rfl⟩
      simp [GetIntentByIdempotencyKey, List.find?_append, hlkRaw, List.find?]
    case ach =>
      simp only [Prod.mk.injEq] at h1
      obtain ⟨ha, hb⟩ := h1
      injection ha with ha
      subst hb
      subst ha
      refine ⟨⟨idStr gen, req.tenantId, req.walletId, req.customerId, req.amount,
        .ach, .created, req.idempotencyKey, "", "", none, "",
        none, none, "", "", "", "", req.metadata, now, now, some (now + 86400)⟩,
        ?_, rfl⟩
      simp [GetIntentByIdempotencyKey, List.find?_append, hlkRaw, List.find?]

/-- C4: calling CreateIntent a second time with the same request returns the
first call's response unchanged — same intent id, same status (and same rail
artifacts) — and has no side effects at all: the funding state (intent rows,
published events, ledger commands) after the second call is exactly the state
after the first. -/
theorem funding_C4_idempotent (env : ServiceEnv) (now1 now2 gen1 gen2 : Nat)
    (st0 st1 : FundingState) (req : CreateIntentRequest) (resp1 : CreateIntentResponse)
    (h1 : CreateIntent env now1 gen1 st0 req = (.ok resp1, st1)) :
    CreateIntent env now2 gen2 st1 req = (.ok resp1, st1) := by
  cases hlk : GetIntentByIdempotencyKey st0 req.tenantId req.idempotencyKey with
  | some existing =>
    rw [CreateIntent_hit env now1 gen1 st0 req existing hlk] at h1
    rw [Prod.mk.injEq] at h1
    obtain ⟨ha, hb⟩ := h1
    injection ha with ha
    subst hb
    rw [CreateIntent_hit env now2 gen2 st0 req existing hlk, ha]
  | none =>
    obtain ⟨intentF, hfind, hresp⟩ :=
      CreateIntent_fresh_found env now1 gen1 st0 st1 req resp1 hlk h1
    rw [CreateIntent_hit env now2 gen2 st1 req intentF hfind, hresp]

/-- The request used by the C4 witness. -/
def reqIdemW : CreateIntentRequest :=
  ⟨"t1", "w1", "c1", ⟨1000, "EUR"⟩, .sepa, "K2", "", []⟩

/-- The intent the C4 witness's first call stores. -/
def intentIdemW : FundingIntent :=
  ⟨"id0", "t1", "w1", "c1", ⟨1000, "EUR"⟩, .sepa, .created, "K2", "", "",
    some ⟨"GB82WEST12345698765432", "123456", "98765432", "", "W3G8-id0"⟩,
    "", none, none, "", "", "", "", [], 0, 0, some 86400⟩

/-- The state after the C4 witness's first call. -/
def stIdemW : FundingState :=
  ⟨[intentIdemW],
   [(SubjectIntentCreated,
     ⟨"id1", EventIntentCreated, "t1", "id0",
       .intentCreated "id0" "w1" "c1" ⟨1000, "EUR"⟩ .sepa "K2"⟩)],
   []⟩

/-- The response of the C4 witness's first call. -/
def respIdemW : CreateIntentResponse :=
  ⟨"id0", .created, "",
    some ⟨"GB82WEST12345698765432", "123456", "98765432", "", "W3G8-id0"⟩, ""⟩

/-- Closed instance discharging the hypothesis of the C4 theorem: a concrete
SEPA CreateIntent call replayed with different clock and ULID supply returns
the identical response and leaves the state untouched. -/
theorem funding_C4_witness :
    CreateIntent envW 5 7 stIdemW reqIdemW = (.ok respIdemW, stIdemW) :=
  funding_C4_idempotent envW 0 5 0 7 ⟨[], [], []⟩ stIdemW reqIdemW respIdemW rfl

/-! ## Claim C8: the posting transactions and retry -/

/-- Two accounts of one tenant used by the ledger witnesses: "A" with debit
normal balance, "B" with credit normal balance. -/
def ledgerAccountsW : List Account :=
  [⟨"A", "t1", "1300", .asset, GetNormalBalance .asset, "GBP", false⟩,
   ⟨"B", "t1", "2000", .liability, GetNormalBalance .liability, "GBP", false⟩]

/-- A balanced two-entry deposit request used by the ledger witnesses. -/
def postReqW : PostEntriesRequest :=
  ⟨"t1", "ref", "desc", .deposit, "src", "GBP",
    [⟨"A", .debit, 100, ""⟩, ⟨"B", .credit, 100, ""⟩]⟩

/-- Counterexample to C8: a successful concrete PostEntries run executes TWO
transactions — the batch/entry insert at read-committed isolation and only
then the balance computation and status flip at serializable isolation — not
one serializable transaction as claimed. -/
theorem ledger_C8_counterexample :
    (PostEntries 0 false ⟨ledgerAccountsW, [], []⟩ postReqW).1.isOk = true ∧
    (PostEntries 0 false ⟨ledgerAccountsW, [], []⟩ postReqW).2.2 =
      [IsoLevel.readCommitted, IsoLevel.serializable] ∧
    [IsoLevel.readCommitted, IsoLevel.serializable] ≠ [IsoLevel.serializable] := by
  refine ⟨?_, rfl, by decide⟩
  rfl

/-- C8 (amended): PostEntries inserts the batch and its entries in one
read-committed transaction and then computes `balance_after` and marks the
batch posted in a second, serializable transaction; a serialization failure in
the latter is surfaced immediately after a single attempt — PostEntries never
invokes the `database.Retry` helper — and that helper itself retries up to
maxAttempts with LINEAR sleeps of attempt·10 ms (10, 20, 30 for three
attempts), not capped exponential backoff. -/
theorem ledger_C8_amended :
    (∀ (gen : Nat) (st : LedgerState) (req : PostEntriesRequest),
      (PostEntries gen false st req).1.isOk = true →
      (PostEntries gen false st req).2.2 =
        [IsoLevel.readCommitted, IsoLevel.serializable]) ∧
    (∀ (gen : Nat) (st : LedgerState) (req : PostEntriesRequest),
      (PostEntries gen false st req).1.isOk = true →
      (PostEntries gen true st req).1 = .error "posting batch: serialization failure" ∧
      (PostEntries gen true st req).2.2 =
        [IsoLevel.readCommitted, IsoLevel.serializable]) ∧
    Retry 3 (fun _ => .error .serializationFailure) =
      (.maxRetriesExceeded, [10, 20, 30]) ∧
    [(10 : Nat), 20, 30] ≠ [10, 20, 40] := by
  refine ⟨?_, ?_, rfl, by decide⟩
  · intro gen st req h
    simp only [PostEntries] at h ⊢
    split at h
    · simp [Except.isOk, Except.toBool] at h
    · split at h
      · simp [Except.isOk, Except.toBool] at h
      · rw [if_neg (show ¬ (false = true) by decide)]
        split
        · rfl
        · split <;> rfl
  · intro gen st req h
    simp only [PostEntries] at h ⊢
    split at h
    · simp [Except.isOk, Except.toBool] at h
    · split at h
      · simp [Except.isOk, Except.toBool] at h
      · exact ⟨rfl, rfl⟩

/-- Closed instance discharging the hypotheses of the amended C8 theorem at
the concrete balanced request. -/
theorem ledger_C8_witness :
    (PostEntries 0 true ⟨ledgerAccountsW, [], []⟩ postReqW).1 =
      .error "posting batch: serialization failure" ∧
    (PostEntries 0 true ⟨ledgerAccountsW, [], []⟩ postReqW).2.2 =
      [IsoLevel.readCommitted, IsoLevel.serializable] :=
  ledger_C8_amended.2.1 0 ⟨ledgerAccountsW, [], []⟩ postReqW rfl

/-! ## Claim C2: running balances written by PostBatch

The claim's rule is formalised by `specNewBalance`/`specBalancesAfter`,
written from the spec's words (prev + amount when the entry's side matches the
account's normal balance, else prev - amount, threading a per-account running
map seeded with the balance of the account's most recent entry), and proved to
coincide with the per-entry loop of `Store.PostBatch`, which instead re-reads
the latest non-null `balance_after` from the entries table at every step. -/

/-- The claim's balance rule for one entry. -/
def specNewBalance (normal : NormalBalance) (side : EntryType) (prev amount : Int) : Int :=
  if (normal = NormalBalance.debit ∧ side = EntryType.debit) ∨
      (normal = NormalBalance.credit ∧ side = EntryType.credit) then
    prev + amount
  else prev - amount

/-- The claim's sequential balance computation over the entries of a batch:
a functional running map from account to balance, seeded by `prev`. -/
def specBalancesAfter (normalOf : String → NormalBalance) (prev : String → Int) :
    List Entry → List Int
  | [] => []
  | e :: rest =>
    let nb := specNewBalance (normalOf e.accountId) e.entryType (prev e.accountId)
      e.amount.amountMinor
    nb :: specBalancesAfter normalOf (fun a => if a = e.accountId then nb else prev a) rest

/-- Write a list of computed balances onto the corresponding entries. -/
def applyBalances (es : List Entry) (bs : List Int) : List Entry :=
  List.zipWith (fun e b => { e with balanceAfter := some b }) es bs

theorem newBalance_eq_spec (nb : NormalBalance) (et : EntryType) (cur amt : Int) :
    (if nb = NormalBalance.debit then
        if et = EntryType.debit then cur + amt else cur - amt
      else
        if et = EntryType.credit then cur + amt else cur - amt) =
    specNewBalance nb et cur amt := by
  cases nb <;> cases et <;> simp [specNewBalance]

theorem latestBalanceAfter_append_none (xs zs : List Entry) (a : String)
    (h : ∀ e ∈ zs, e.balanceAfter = none) :
    latestBalanceAfter (xs ++ zs) a = latestBalanceAfter xs a := by
  unfold latestBalanceAfter
  have hz : zs.filter (fun e => e.accountId == a && e.balanceAfter.isSome) = [] := by
    induction zs with
    | nil => rfl
    | cons z zr ih =>
      have hzb := h z (by simp)
      rw [List.filter_cons]
      rw [if_neg (by simp [hzb])]
      exact ih (fun e he => h e (by simp [he]))
  rw [List.filter_append, hz, List.append_nil]

theorem latestBalanceAfter_snoc_same (xs : List Entry) (x : Entry) (a : String) (v : Int)
    (hacc : x.accountId = a) (hsome : x.balanceAfter = some v) :
    latestBalanceAfter (xs ++ [x]) a = v := by
  unfold latestBalanceAfter
  rw [List.filter_append]
  have hx : [x].filter (fun e => e.accountId == a && e.balanceAfter.isSome) = [x] := by
    rw [List.filter_cons]
    rw [if_pos (by simp [hacc, hsome])]
    rfl
  rw [hx, List.getLast?_concat]
  simp [hsome]

theorem latestBalanceAfter_snoc_other (xs : List Entry) (x : Entry) (a : String)
    (hacc : ¬ x.accountId = a) :
    latestBalanceAfter (xs ++ [x]) a = latestBalanceAfter xs a := by
  unfold latestBalanceAfter
  rw [List.filter_append]
  have hx : [x].filter (fun e => e.accountId == a && e.balanceAfter.isSome) = [] := by
    rw [List.filter_cons]
    rw [if_neg (by simp [hacc])]
    rfl
  rw [hx, List.append_nil]

theorem updateEntryBalance_skip (xs : List Entry) (eid : String) (v : Int)
    (h : ∀ x ∈ xs, ¬ x.id = eid) :
    updateEntryBalance xs eid v = xs := by
  unfold updateEntryBalance
  induction xs with
  | nil => rfl
  | cons x xr ih =>
    rw [List.map_cons]
    rw [if_neg (by simp [h x (by simp)])]
    congr 1
    exact ih (fun y hy => h y (by simp [hy]))

theorem updateEntryBalance_split (front rest : List Entry) (e : Entry) (v : Int)
    (hf : ∀ x ∈ front, ¬ x.id = e.id) (hr : ∀ x ∈ rest, ¬ x.id = e.id) :
    updateEntryBalance (front ++ e :: rest) e.id v =
      front ++ { e with balanceAfter := some v } :: rest := by
  unfold updateEntryBalance
  rw [List.map_append]
  congr 1
  · exact updateEntryBalance_skip front e.id v hf
  · rw [List.map_cons]
    rw [if_pos (by simp)]
    congr 1
    exact updateEntryBalance_skip rest e.id v hr

theorem updateBalances_eq_spec (accounts : List Account) (batches : List Batch) :
    ∀ (es front : List Entry) (prev : String → Int),
    (∀ e ∈ es, e.balanceAfter = none) →
    (∀ e ∈ es, (accounts.find? (fun a => a.id == e.accountId)).isSome) →
    (es.map Entry.id).Nodup →
    (∀ e ∈ es, ∀ f ∈ front, ¬ f.id = e.id) →
    (∀ a, latestBalanceAfter (front ++ es) a = prev a) →
    updateBalances ⟨accounts, batches, front ++ es⟩ es =
      .ok ⟨accounts, batches,
        front ++ applyBalances es (specBalancesAfter (normalBalanceOf accounts) prev es)⟩ := by
  intro es
  induction es with
  | nil =>
    intro front prev _ _ _ _ _
    simp [updateBalances, applyBalances, specBalancesAfter]
  | cons e rest ih =>
    intro front prev hnone hacc hnodup hdisj hprev
    obtain ⟨acc, hfind⟩ := Option.isSome_iff_exists.mp (hacc e (by simp))
    have hnormal : normalBalanceOf accounts e.accountId = acc.normalBalance := by
      unfold normalBalanceOf
      rw [hfind]
    have hcur : latestBalanceAfter (front ++ e :: rest) e.accountId = prev e.accountId :=
      hprev e.accountId
    have hnodup2 : (∀ x ∈ rest, ¬ x.id = e.id) ∧ (List.map Entry.id rest).Nodup := by
      simpa using hnodup
    have hr := hnodup2.1
    have hf : ∀ x ∈ front, ¬ x.id = e.id := fun x hx => hdisj e (by simp) x hx
    have hNB : (if acc.normalBalance = NormalBalance.debit then
          if e.entryType = EntryType.debit then
            latestBalanceAfter (front ++ e :: rest) e.accountId + e.amount.amountMinor
          else latestBalanceAfter (front ++ e :: rest) e.accountId - e.amount.amountMinor
        else
          if e.entryType = EntryType.credit then
            latestBalanceAfter (front ++ e :: rest) e.accountId + e.amount.amountMinor
          else latestBalanceAfter (front ++ e :: rest) e.accountId - e.amount.amountMinor) =
        specNewBalance acc.normalBalance e.entryType (prev e.accountId)
          e.amount.amountMinor := by
      rw [hcur]
      exact newBalance_eq_spec acc.normalBalance e.entryType (prev e.accountId)
        e.amount.amountMinor
    have hone : updateBalances ⟨accounts, batches, front ++ e :: rest⟩ (e :: rest) =
        updateBalances ⟨accounts, batches,
          (front ++ [{ e with balanceAfter := some (specNewBalance acc.normalBalance
            e.entryType (prev e.accountId) e.amount.amountMinor) }]) ++ rest⟩ rest := by
      simp only [updateBalances, hfind]
      rw [updateEntryBalance_split front rest e _ hf hr]
      rw [hNB]
      rw [List.append_cons]
    rw [hone]
    have hprev' : ∀ a,
        latestBalanceAfter ((front ++ [{ e with balanceAfter := some (specNewBalance
          acc.normalBalance e.entryType (prev e.accountId) e.amount.amountMinor) }]) ++
            rest) a =
          (fun a => if a = e.accountId then specNewBalance acc.normalBalance e.entryType
            (prev e.accountId) e.amount.amountMinor else prev a) a := by
      intro a
      rw [latestBalanceAfter_append_none _ rest a (fun x hx => hnone x (by simp [hx]))]
      by_cases ha : a = e.accountId
      · rw [latestBalanceAfter_snoc_same front _ a
          (specNewBalance acc.normalBalance e.entryType (prev e.accountId)
            e.amount.amountMinor) (by simp [ha]) rfl]
        simp [ha]
      · rw [latestBalanceAfter_snoc_other front _ a (by simp; intro hcon; exact ha hcon.symm)]
        have hfront := hprev a
        rw [latestBalanceAfter_append_none front (e :: rest) a hnone] at hfront
        simp [ha, hfront]
    have hih := ih (front ++ [{ e with balanceAfter := some (specNewBalance
        acc.normalBalance e.entryType (prev e.accountId) e.amount.amountMinor) }])
      (fun a => if a = e.accountId then specNewBalance acc.normalBalance e.entryType
        (prev e.accountId) e.amount.amountMinor else prev a)
      (fun x hx => hnone x (by simp [hx]))
      (fun x hx => hacc x (by simp [hx]))
      hnodup2.2
      (by
        intro r hr' f hf'
        rcases List.mem_append.mp hf' with hf1 | hf2
        · exact hdisj r (by simp [hr']) f hf1
        · intro hcon
          rw [List.mem_singleton] at hf2
          subst hf2
          simp at hcon
          exact hr r hr' hcon.symm)
      hprev'
    rw [hih]
    simp only [specBalancesAfter, hnormal]
    simp [applyBalances, List.zipWith]

theorem latestBalanceAfter_eq_mostRecent (front : List Entry) (a : String)
    (h : ∀ f ∈ front, f.balanceAfter.isSome) :
    latestBalanceAfter front a = mostRecentBalance front a := by
  unfold latestBalanceAfter mostRecentBalance
  have hfeq : front.filter (fun e => e.accountId == a && e.balanceAfter.isSome) =
      front.filter (fun e => e.accountId == a) := by
    apply List.filter_congr
    intro x hx
    rw [h x hx]
    simp
  rw [hfeq]

/-- C2: when a pending batch is posted, `Store.PostBatch` fills
`balance_after` on every entry of the batch, in sequence order, with exactly
the value demanded by the claim: `prev + amount` when the entry's side matches
the account's normal balance and `prev - amount` otherwise, threading the
running balance per account (`specBalancesAfter`), seeded for each account
with the `balance_after` of its most recent prior entry, or 0 if it has none
(`mostRecentBalance`); the batch row itself is flipped to posted.  The
hypotheses say: the batch is pending, its entries sit at the end of the entry
table in sequence order with NULL `balance_after` and fresh ids, all earlier
entries carry a computed `balance_after`, and every referenced account
exists. -/
theorem ledger_C2_running_balance (st : LedgerState) (tenantId batchId userId : String)
    (front es : List Entry) (b : Batch)
    (hsplit : st.entries = front ++ es)
    (hb : st.batches.find? (fun x => x.tenantId == tenantId && x.id == batchId) = some b)
    (hpend : b.status = BatchStatus.pending)
    (hfrontB : ∀ f ∈ front, ¬ f.batchId = batchId)
    (hesB : ∀ e ∈ es, e.batchId = batchId)
    (hsort : sortBySequence es = es)
    (hnone : ∀ e ∈ es, e.balanceAfter = none)
    (hfrontSome : ∀ f ∈ front, f.balanceAfter.isSome)
    (hacc : ∀ e ∈ es, (st.accounts.find? (fun a => a.id == e.accountId)).isSome)
    (hnodupEs : (es.map Entry.id).Nodup)
    (hdisj : ∀ e ∈ es, ∀ f ∈ front, ¬ f.id = e.id) :
    PostBatch st tenantId batchId userId =
      .ok { st with
            entries := front ++ applyBalances es
              (specBalancesAfter (normalBalanceOf st.accounts)
                (mostRecentBalance front) es)
            batches := st.batches.map
              (fun x => if x.id == batchId then { x with status := .posted } else x) } := by
  obtain ⟨accounts, batches, entries⟩ := st
  simp only at hsplit hacc ⊢
  subst hsplit
  simp only [PostBatch, hb]
  rw [if_neg (by simp [hpend])]
  have hfilter : (front ++ es).filter (fun e => e.batchId == batchId) = es := by
    rw [List.filter_append]
    rw [List.filter_eq_nil_iff.mpr (by intro f hf; simp [hfrontB f hf])]
    rw [List.filter_eq_self.mpr (by intro e he; simp [hesB e he])]
    rw [List.nil_append]
  rw [hfilter, hsort]
  have hprev : ∀ a, latestBalanceAfter (front ++ es) a = mostRecentBalance front a := by
    intro a
    rw [latestBalanceAfter_append_none front es a hnone]
    exact latestBalanceAfter_eq_mostRecent front a hfrontSome
  rw [updateBalances_eq_spec accounts batches es front (mostRecentBalance front)
    hnone hacc hnodupEs hdisj hprev]

/-- The pending batch used by the C2 witness. -/
def batchC2W : Batch :=
  ⟨"b1", "t1", "", "", .deposit, "src", ⟨100, "GBP"⟩, ⟨100, "GBP"⟩, 2, .pending, []⟩

/-- The two NULL-balance entries of the C2 witness batch. -/
def esC2W : List Entry :=
  [⟨"e1", "b1", "A", .debit, ⟨100, "GBP"⟩, none, "", 1⟩,
   ⟨"e2", "b1", "B", .credit, ⟨100, "GBP"⟩, none, "", 2⟩]

/-- The C2 witness ledger: two accounts, one pending batch, its two entries. -/
def stC2W : LedgerState := ⟨ledgerAccountsW, [batchC2W], esC2W⟩

/-- Closed instance discharging the hypotheses of the C2 theorem on the
concrete two-entry batch. -/
theorem ledger_C2_witness :
    PostBatch stC2W "t1" "b1" "" =
      .ok { stC2W with
            entries := [] ++ applyBalances esC2W
              (specBalancesAfter (normalBalanceOf stC2W.accounts)
                (mostRecentBalance []) esC2W)
            batches := stC2W.batches.map
              (fun x => if x.id == "b1" then { x with status := .posted } else x) } :=
  ledger_C2_running_balance stC2W "t1" "b1" "" [] esC2W batchC2W rfl (by decide) rfl
    (by decide) (by decide) (by decide) (by decide) (by decide) (by decide) (by decide)
    (by decide)
